import Mathlib

/-!
Shallow embedding of the escaner-bodega repository (src/meli_envios2.py and
src/streamlit_app.py) and verification of its specification claims.

HTTP, database and blob-storage interactions are modelled as explicit
parameters (the response the external world would produce), and the Python
functions become pure Lean functions over those parameters.  Python
truthiness on optional strings (where both None and the empty string are
falsy) is modelled by pyTruthy / pyOr / pyOrD; Python str.strip() is
modelled by pyStrip.
-/

namespace EscanerBodega

/-- Python truthiness for an optional string: None and the empty string are falsy. -/
def pyTruthy : Option String → Bool
  | none => false
  | some s => !(s == "")

/-- Python `a or b` on optional strings. -/
def pyOr (a b : Option String) : Option String :=
  if pyTruthy a then a else b

/-- Python `a or d` where the fallback is a plain string. -/
def pyOrD (a : Option String) (d : String) : String :=
  match a with
  | none => d
  | some s => if s == "" then d else s

/-- How Python renders an optional string inside an f-string (None prints as "None"). -/
def pyStr : Option String → String
  | none => "None"
  | some s => s

/-- Whitespace characters removed by Python str.strip(). -/
def isPySpace (c : Char) : Bool :=
  c == ' ' || c == '\t' || c == '\n' || c == '\r' || c == '\x0b' || c == '\x0c'

/-- Python str.strip(): drop leading and trailing whitespace. -/
def pyStrip (s : String) : String :=
  String.mk (((s.toList.dropWhile isPySpace).reverse.dropWhile isPySpace).reverse)

/-! ## src/meli_envios2.py — token store -/

/-- The mutable fields of MeliTokenStore (meli_envios2.py, lines 35-41). -/
structure TokenState where
  app_id : Option String := none
  client_secret : Option String := none
  access_token : Option String := none
  refresh_token : Option String := none
deriving DecidableEq

/-- MeliTokenStore.can_refresh (meli_envios2.py, lines 89-90). -/
def can_refresh (ts : TokenState) : Bool :=
  pyTruthy ts.app_id && pyTruthy ts.client_secret && pyTruthy ts.refresh_token

/-- JSON payload of the OAuth token endpoint response. -/
structure OAuthPayload where
  access_token : Option String := none
  refresh_token : Option String := none
deriving DecidableEq

/-- Outcome of the POST to /oauth/token as seen by refresh(): either a
response with a status code and parsed JSON body, or a network/JSON
exception raised inside the try block. -/
inductive RefreshHttp where
  | success (status_code : Nat) (payload : OAuthPayload)
  | exn
deriving DecidableEq

/-- Result of MeliTokenStore.refresh: the token state after the call, the
returned boolean, and whether _save_file() was invoked. -/
structure RefreshResult where
  state : TokenState
  ok : Bool
  saveCalled : Bool
deriving DecidableEq

/-- MeliTokenStore.refresh (meli_envios2.py, lines 92-121).  On HTTP 200 it
sets access_token to `payload.get("access_token") or self.access_token`,
replaces refresh_token only if the payload carries a truthy one, calls
_save_file() and returns True; on a non-200 response, an exception, or
missing credentials it returns False without touching any state. -/
def MeliTokenStore.refresh (ts : TokenState) (http : RefreshHttp) : RefreshResult :=
  if can_refresh ts = false then ⟨ts, false, false⟩
  else
    match http with
    | .exn => ⟨ts, false, false⟩
    | .success status_code payload =>
      if status_code = 200 then
        let ts1 : TokenState := { ts with access_token := pyOr payload.access_token ts.access_token }
        let ts2 : TokenState :=
          if pyTruthy payload.refresh_token then
            { ts1 with refresh_token := payload.refresh_token }
          else ts1
        ⟨ts2, true, true⟩
      else ⟨ts, false, false⟩

/-! ## src/meli_envios2.py — authenticated request wrapper -/

/-- An HTTP response as consumed by _meli_request. -/
structure MeliResponse where
  status_code : Nat
  body : String := ""
deriving DecidableEq

/-- Observable behaviour of one _meli_request call: the response handed to
the caller, how many times _token_store.refresh() was invoked, and how many
HTTP requests were issued. -/
structure RequestTrace where
  response : MeliResponse
  refresh_calls : Nat
  http_requests : Nat
deriving DecidableEq

/-- _meli_request (meli_envios2.py, lines 152-178).  `r1` is the response to
the first request and `r2` the response the world would give to the single
retry; `refreshOk` is what _token_store.refresh() returns.  On a 401/403
first response the wrapper calls refresh() exactly once and, only if it
succeeded, re-issues the request once, returning whatever that retry
produced; otherwise the first response is returned. -/
def meli_request (refreshOk : Bool) (r1 r2 : MeliResponse) : RequestTrace :=
  if r1.status_code = 401 ∨ r1.status_code = 403 then
    if refreshOk then ⟨r2, 1, 2⟩ else ⟨r1, 1, 1⟩
  else ⟨r1, 0, 1⟩

/-! ## src/meli_envios2.py — shipment JSON and label eligibility -/

/-- The `logistic` object of a shipment JSON. -/
structure Logistic where
  mode : Option String := none
  type : Option String := none
  logistic_type : Option String := none
deriving DecidableEq

/-- The `lead_time.buffering` object of a shipment JSON. -/
structure Buffering where
  date : Option String := none
deriving DecidableEq

/-- The `lead_time` object of a shipment JSON. -/
structure LeadTime where
  buffering : Option Buffering := none
deriving DecidableEq

/-- The fields of a shipment JSON inspected by _explicacion_estado_label. -/
structure Shipment where
  logistic : Option Logistic := none
  status : Option String := none
  substatus : Option String := none
  lead_time : Option LeadTime := none
deriving DecidableEq

/-- LABEL_ALLOWED_TYPES (meli_envios2.py, line 17). -/
def LABEL_ALLOWED_TYPES : List String :=
  ["drop_off", "xd_drop_off", "cross_docking", "self_service"]

/-- _explicacion_estado_label (meli_envios2.py, lines 297-337): returns none
when the label may be printed, otherwise a diagnostic reason string.  The
rules are evaluated in source order: not-ME2, missing type, fulfillment,
type not allowed, buffered, wrong status, wrong substatus. -/
def explicacion_estado_label (sh_json : Shipment) : Option String :=
  let logistic := sh_json.logistic.getD {}
  let mode := logistic.mode
  let ltype := pyOr logistic.type logistic.logistic_type
  if mode ≠ some "me2" then
    some "El envío no es ME2 (mode != \x27me2\x27)."
  else
    match ltype with
    | none => some "No se encontró logistic.type."
    | some t =>
      if t = "fulfillment" then
        some "Fulfillment: la etiqueta de envío la gestiona Mercado Libre."
      else if t ∉ LABEL_ALLOWED_TYPES then
        some ("Tipo de logística no permitido para etiqueta: " ++ t ++ ".")
      else
        let status := sh_json.status
        let substatus := sh_json.substatus
        if status = some "pending" ∧ substatus = some "buffered" then
          let lead_time := sh_json.lead_time.getD {}
          let buffering := lead_time.buffering.getD {}
          if pyTruthy buffering.date then
            some ("Etiqueta no disponible aún (buffering). Disponible desde: "
              ++ pyStr buffering.date ++ ".")
          else
            some "Etiqueta no disponible aún (buffering)."
        else if status ≠ some "ready_to_ship" then
          some ("Estado no permitido para imprimir etiqueta: status=" ++ pyStr status ++ ".")
        else if substatus ≠ some "ready_to_print" ∧ substatus ≠ some "printed" then
          some ("Subestado no permitido para imprimir etiqueta: substatus="
            ++ pyStr substatus ++ ".")
        else
          none

/-! ## src/meli_envios2.py — label PDF download -/

/-- First four bytes of a PDF file, b"%PDF". -/
def pdfMagic : List Nat := [37, 80, 68, 70]

/-- A raw-bytes HTTP response (status code and body bytes). -/
structure BytesResponse where
  status_code : Nat
  content : List Nat := []
deriving DecidableEq

/-- _meli_download_label_pdf (meli_envios2.py, lines 340-370).  `shipment`
is what _meli_get_shipment returned and `labelResp` the /shipment_labels
response (none models a raised exception).  Bytes are returned only when
the shipment is eligible, the status is 200 and the body starts with
b"%PDF". -/
def meli_download_label_pdf (shipment : Option Shipment) (labelResp : Option BytesResponse) :
    Option (List Nat) :=
  match shipment with
  | none => none
  | some sh =>
    if explicacion_estado_label sh ≠ none then none
    else
      match labelResp with
      | none => none
      | some r =>
        if r.status_code = 200 then
          if r.content.take 4 = pdfMagic then some r.content else none
        else none

/-! ## src/streamlit_app.py — label download with diagnostic message -/

/-- The JSON body of a non-PDF /shipment_labels response, together with its
Python string rendering str(j) (used for the not_printable_status probe). -/
structure ErrJson where
  message : Option String := none
  error : Option String := none
  strRepr : String := ""
deriving DecidableEq

/-- A /shipment_labels response as consumed by download_label_pdf: status
code, body bytes, the parsed JSON body (none models r.json() raising), and
the body text. -/
structure LabelHttp where
  status_code : Nat
  content : List Nat := []
  jsonBody : Option ErrJson := none
  text : String := ""
deriving DecidableEq

/-- Python `pat in s` for strings. -/
def strContains (s pat : String) : Bool :=
  (s.splitOn pat).length ≥ 2

/-- download_label_pdf (streamlit_app.py, lines 181-204).  Returns the PDF
bytes exactly when the status is 200 and the body starts with b"%PDF";
otherwise returns no bytes and a diagnostic error string built from the
JSON body (with special cases for 400 not_printable_status, 429 and 404). -/
def download_label_pdf (r : LabelHttp) : Option (List Nat) × Option String :=
  if r.status_code = 200 ∧ r.content.take 4 = pdfMagic then
    (some r.content, none)
  else
    let j : ErrJson := r.jsonBody.getD
      { message := some (r.text.take 300),
        strRepr := "\x7b\x27message\x27: \x27" ++ r.text.take 300 ++ "\x27\x7d" }
    let err := pyStr (pyOr (pyOr j.message j.error) (some (j.strRepr.take 300)))
    let err2 :=
      if r.status_code = 400 ∧ strContains j.strRepr "not_printable_status" then
        "400 not_printable_status: el envío no está listo para imprimir."
      else if r.status_code = 429 then
        "429 local_rate_limited: intenta en unos segundos."
      else if r.status_code = 404 then
        "404 not_found: revisa order/pack."
      else err
    (none, some ("Error " ++ toString r.status_code ++ ": " ++ err2))

/-! ## src/streamlit_app.py — record store and the scan processor -/

/-- A row of the paquetes_mercadoenvios_chile table, with the columns
written by insert_no_coincidente and read by process_scan.  NULL text
columns are modelled as the empty string (Python code always passes them
through `x or ""`). -/
structure Record where
  asignacion : String := ""
  guia : String := ""
  fecha_ingreso : Option String := none
  estado_escaneo : String := ""
  asin : String := ""
  cantidad : Int := 0
  estado_orden : String := ""
  estado_envio : String := ""
  archivo_adjunto : String := ""
  url_imagen : String := ""
  comentario : String := ""
  descripcion : String := ""
  titulo : String := ""
  orden_meli : String := ""
  pack_id : String := ""
  fecha_venta : Option String := none
  fecha_sincronizacion : Option String := none
  orden_amazon : String := ""
deriving DecidableEq

/-- The row inserted by insert_no_coincidente (streamlit_app.py, lines
113-135), with `now` the value of now_chile_iso_naive(). -/
def insert_no_coincidente_record (now guia : String) : Record :=
  { asignacion := ""
    guia := guia
    fecha_ingreso := some now
    estado_escaneo := "NO COINCIDENTE!"
    asin := ""
    cantidad := 0
    estado_orden := ""
    estado_envio := ""
    archivo_adjunto := ""
    url_imagen := ""
    comentario := ""
    descripcion := ""
    titulo := ""
    orden_meli := ""
    pack_id := ""
    fecha_venta := none
    fecha_sincronizacion := none
    orden_amazon := "" }

/-- lookup_by_guia (streamlit_app.py, lines 95-97): first row whose guia
column equals the scanned code. -/
def lookup_by_guia (store : List Record) (guia : String) : Option Record :=
  store.find? (fun r => r.guia == guia)

/-- A database write issued by process_scan.  `insert` is a call to
insert_no_coincidente; `update_ingreso` writes fecha_ingreso := now and
estado_escaneo := "INGRESADO CORRECTAMENTE!" to the row with the given
guia; `set_impreso_ok` writes fecha_impresion := now, estado_escaneo :=
"IMPRIMIDO CORRECTAMENTE!" and archivo_adjunto := archivo_public. -/
inductive DbOp where
  | insert (r : Record)
  | update_ingreso (guia : String) (now : String)
  | set_impreso_ok (guia : String) (now : String) (archivo_public : String)
deriving DecidableEq

/-- The operator-visible outcome of one process_scan call. -/
inductive ScanOutcome where
  | invalidGuia
  | noCoincidente (guia : String)
  | ingresado (guia : String)
  | etiquetaDesdeStorage (asignacion : String)
  | faltaToken
  | sinShipmentId
  | descargaFallida (msg : String)
  | subidaFallida
  | impresoOk (shipment_id : String)
  | paginaDesconocida
deriving DecidableEq

/-- The ambient state and external world consulted by process_scan: the
clock, the active page, the session token, and the responses the HTTP /
storage helpers would produce (url_disponible, requests.get on the stored
URL with none modelling an exception, derive_shipment_id,
download_label_pdf, upload_pdf_to_storage). -/
structure ScanEnv where
  now : String
  page : String
  meli_manual_token : String
  url_disponible : String → Bool
  fetch_url : String → Option (List Nat)
  derive_shipment_id : Option String → Option String → Option String
  download_label : String → Option (List Nat) × Option String
  upload_pdf_to_storage : String → List Nat → Option String

/-- The imprimir branch local `asignacion = (match.get("asignacion") or
"etiqueta").strip() or "etiqueta"` (streamlit_app.py, line 230). -/
def asignacion_of (m : Record) : String :=
  if pyStrip (if m.asignacion == "" then "etiqueta" else m.asignacion) = "" then "etiqueta"
  else pyStrip (if m.asignacion == "" then "etiqueta" else m.asignacion)

/-- The token-based part of the imprimir branch of process_scan
(streamlit_app.py, lines 253-292): read the session token, derive a
shipment id from orden_meli / pack_id, download the label, upload it to
storage, and only then call set_impreso_ok. -/
def imprimir_token_path (env : ScanEnv) (m : Record) (guia asignacion : String) :
    List DbOp × ScanOutcome :=
  if pyStrip env.meli_manual_token = "" then ([], .faltaToken)
  else
    match env.derive_shipment_id
        (if pyStrip m.orden_meli = "" then none else some (pyStrip m.orden_meli))
        (if pyStrip m.pack_id = "" then none else some (pyStrip m.pack_id)) with
    | none => ([], .sinShipmentId)
    | some shipment_id =>
      match env.download_label shipment_id with
      | (none, err) => ([], .descargaFallida (pyOrD err "No se pudo descargar la etiqueta."))
      | (some pdf, _) =>
        match env.upload_pdf_to_storage asignacion pdf with
        | none => ([], .subidaFallida)
        | some url_publica =>
          ([DbOp.set_impreso_ok guia env.now url_publica], .impresoOk shipment_id)

/-- The imprimir branch of process_scan (streamlit_app.py, lines 229-292):
serve the stored PDF when its URL is reachable and the body passes the
magic-byte check; on any other outcome of that attempt fall through to the
token path. -/
def imprimir_branch (env : ScanEnv) (m : Record) (guia : String) :
    List DbOp × ScanOutcome :=
  if m.archivo_adjunto ≠ "" ∧ env.url_disponible m.archivo_adjunto then
    match env.fetch_url m.archivo_adjunto with
    | some pdf_bytes =>
      if pdf_bytes.take 4 = pdfMagic then ([], .etiquetaDesdeStorage (asignacion_of m))
      else imprimir_token_path env m guia (asignacion_of m)
    | none => imprimir_token_path env m guia (asignacion_of m)
  else imprimir_token_path env m guia (asignacion_of m)

/-- process_scan (streamlit_app.py, lines 210-292): strip the scanned code;
on empty input warn; if no row matches, insert a NO COINCIDENTE row; on the
ingresar page update the ingestion timestamp; on the imprimir page run the
imprimir branch. -/
def process_scan (env : ScanEnv) (store : List Record) (guia0 : String) :
    List DbOp × ScanOutcome :=
  let guia := pyStrip guia0
  if guia = "" then ([], .invalidGuia)
  else
    match lookup_by_guia store guia with
    | none =>
      ([DbOp.insert (insert_no_coincidente_record env.now guia)], .noCoincidente guia)
    | some m =>
      if env.page = "ingresar" then
        ([DbOp.update_ingreso guia env.now], .ingresado guia)
      else if env.page = "imprimir" then
        imprimir_branch env m guia
      else ([], .paginaDesconocida)

/-! ## src/streamlit_app.py — marketplace order sync deduplication -/

/-- The columns of a stored row consulted by the sync dedup check and named
by the dedup invariant (id plus the three candidate keys and guia). -/
structure StoredRow where
  id : Nat
  orden_meli : String := ""
  asignacion : String := ""
  pack_id : String := ""
  guia : String := ""
deriving DecidableEq

/-- The row_sync dict built for each fetched order (streamlit_app.py,
lines 608-622). -/
structure RowSync where
  asignacion : String := ""
  guia : String := ""
  estado_orden : String := ""
  estado_envio : String := ""
  asin : String := ""
  cantidad : Int := 0
  titulo : String := ""
  orden_meli : String := ""
  pack_id : String := ""
  url_imagen : String := ""
  archivo_adjunto : String := ""
  fecha_venta : Option String := none
  fecha_sincronizacion : Option String := none
deriving DecidableEq

/-- The column subset written by the update branch of sync_meli_orders
(streamlit_app.py, lines 627-638): guia and archivo_adjunto are not
overwritten. -/
structure SyncUpdate where
  asignacion : String
  estado_orden : String
  estado_envio : String
  asin : String
  cantidad : Int
  titulo : String
  pack_id : String
  url_imagen : String
  fecha_venta : Option String
  fecha_sincronizacion : Option String
deriving DecidableEq

/-- The update payload extracted from a row_sync dict. -/
def SyncUpdate.ofRow (r : RowSync) : SyncUpdate :=
  { asignacion := r.asignacion
    estado_orden := r.estado_orden
    estado_envio := r.estado_envio
    asin := r.asin
    cantidad := r.cantidad
    titulo := r.titulo
    pack_id := r.pack_id
    url_imagen := r.url_imagen
    fecha_venta := r.fecha_venta
    fecha_sincronizacion := r.fecha_sincronizacion }

/-- The database action taken for one fetched order. -/
inductive SyncAction where
  | insertRow (r : RowSync)
  | updateRow (id : Nat) (u : SyncUpdate)
deriving DecidableEq

/-- The per-order upsert step of sync_meli_orders (streamlit_app.py, lines
624-642): select the rows whose orden_meli equals the order id; if any
exists, update the first one in place, otherwise insert row_sync. -/
def sync_upsert_one (store : List StoredRow) (row_sync : RowSync) : SyncAction :=
  match store.find? (fun s => s.orden_meli == row_sync.orden_meli) with
  | some s => .updateRow s.id (SyncUpdate.ofRow row_sync)
  | none => .insertRow row_sync

/-! ## Claims about meli_envios2.py -/

/-- Claim C1: in the authenticated request wrapper, when the first response
is a 401 (and the token refresh the wrapper triggers succeeds), exactly one
refresh attempt is made and the response of the single retry is returned to
the caller — in particular with responses [401, 200] the 200 is returned,
and with [401, 401] the retried 401 is returned after one refresh attempt
and exactly two HTTP requests, i.e. with no further retries. -/
theorem c1_request_wrapper_single_retry (r1 r2 : MeliResponse)
    (h1 : r1.status_code = 401) :
    (meli_request true r1 r2).response = r2 ∧
    (meli_request true r1 r2).refresh_calls = 1 ∧
    (meli_request true r1 r2).http_requests = 2 := by
  simp [meli_request, h1]

/-- Witness for C1 at the concrete response pair [401, 200]. -/
theorem c1_request_wrapper_single_retry_witness :
    (MeliResponse.mk 401 "expired").status_code = 401 ∧
    ((meli_request true (MeliResponse.mk 401 "expired") (MeliResponse.mk 200 "ok")).response
        = MeliResponse.mk 200 "ok" ∧
      (meli_request true (MeliResponse.mk 401 "expired") (MeliResponse.mk 200 "ok")).refresh_calls = 1 ∧
      (meli_request true (MeliResponse.mk 401 "expired") (MeliResponse.mk 200 "ok")).http_requests = 2) :=
  ⟨rfl, c1_request_wrapper_single_retry (MeliResponse.mk 401 "expired") (MeliResponse.mk 200 "ok") rfl⟩

/-- Claim C2: whenever logistic.mode of a shipment JSON differs from "me2"
(including when the logistic object is absent), _explicacion_estado_label
returns the not-ME2 reason, regardless of status, substatus or logistic
type: the first rule of the decision table wins. -/
theorem c2_not_me2_rule_wins (sh : Shipment)
    (h : (sh.logistic.getD {}).mode ≠ some "me2") :
    explicacion_estado_label sh = some "El envío no es ME2 (mode != \x27me2\x27)." := by
  unfold explicacion_estado_label
  simp [h]

/-- Witness for C2 at a shipment JSON with no logistic object at all. -/
theorem c2_not_me2_rule_wins_witness :
    ((({} : Shipment).logistic.getD {}).mode ≠ some "me2") ∧
    explicacion_estado_label {} = some "El envío no es ME2 (mode != \x27me2\x27)." :=
  ⟨by decide, c2_not_me2_rule_wins {} (by decide)⟩

/-- The eligible shipment of claim C3: mode me2, type drop_off, status
ready_to_ship, substatus ready_to_print. -/
def shC3 : Shipment :=
  { logistic := some { mode := some "me2", type := some "drop_off" }
    status := some "ready_to_ship"
    substatus := some "ready_to_print" }

/-- Claim C3: a shipment with mode me2, type drop_off, status
ready_to_ship and substatus ready_to_print is eligible: the check returns
the no-error sentinel (none) with no reason string. -/
theorem c3_eligible_drop_off_ready_to_print : explicacion_estado_label shC3 = none := by
  decide

/-- Buffered shipment with lead_time.buffering.date = "2025-01-01". -/
def shC4_con_fecha : Shipment :=
  { logistic := some { mode := some "me2", type := some "drop_off" }
    status := some "pending"
    substatus := some "buffered"
    lead_time := some { buffering := some { date := some "2025-01-01" } } }

/-- Buffered shipment with no buffering date present. -/
def shC4_sin_fecha : Shipment :=
  { logistic := some { mode := some "me2", type := some "drop_off" }
    status := some "pending"
    substatus := some "buffered" }

/-- Claim C4: for a buffered shipment (status pending, substatus buffered)
with lead_time.buffering.date = "2025-01-01" the returned reason is the
buffering message with that exact date string spliced in; with no buffering
date present, the generic buffering message is returned. -/
theorem c4_buffering_message_includes_date :
    explicacion_estado_label shC4_con_fecha =
      some ("Etiqueta no disponible aún (buffering). Disponible desde: "
        ++ "2025-01-01" ++ ".") ∧
    explicacion_estado_label shC4_sin_fecha =
      some "Etiqueta no disponible aún (buffering)." := by
  decide

/-- Claim C5: a label download returns PDF bytes only when the HTTP status
is 200 and the first four body bytes are b"%PDF"; any other body, even with
HTTP 200, yields no bytes.  Stated for both _meli_download_label_pdf
(meli_envios2.py, on an eligible shipment) and download_label_pdf
(streamlit_app.py). -/
theorem c5_pdf_magic_gates_download (sh : Shipment) (r : BytesResponse) (q : LabelHttp)
    (h : explicacion_estado_label sh = none) :
    meli_download_label_pdf (some sh) (some r) =
      (if r.status_code = 200 ∧ r.content.take 4 = pdfMagic then some r.content else none) ∧
    (download_label_pdf q).1 =
      (if q.status_code = 200 ∧ q.content.take 4 = pdfMagic then some q.content else none) := by
  constructor
  · unfold meli_download_label_pdf
    simp only [h]
    by_cases h200 : r.status_code = 200 <;>
      by_cases hmagic : r.content.take 4 = pdfMagic <;>
        simp [h200, hmagic]
  · unfold download_label_pdf
    by_cases hc : q.status_code = 200 ∧ q.content.take 4 = pdfMagic <;> simp [hc]

/-- Eligible shipment used by the C5 witness. -/
def shC5 : Shipment :=
  { logistic := some { mode := some "me2", type := some "drop_off" }
    status := some "ready_to_ship"
    substatus := some "printed" }

/-- The bytes of b"<html>". -/
def htmlBytes : List Nat := [60, 104, 116, 109, 108, 62]

/-- The bytes of b"%PDF-1.4". -/
def pdfBytes14 : List Nat := [37, 80, 68, 70, 45, 49, 46, 52]

/-- Witness for C5: an HTTP 200 response whose body is b"<html>" is
rejected by _meli_download_label_pdf, and an HTTP 200 response whose body
is b"%PDF-1.4" is accepted by download_label_pdf. -/
theorem c5_pdf_magic_gates_download_witness :
    explicacion_estado_label shC5 = none ∧
    meli_download_label_pdf (some shC5) (some (BytesResponse.mk 200 htmlBytes)) = none ∧
    (download_label_pdf { status_code := 200, content := pdfBytes14 }).1 = some pdfBytes14 := by
  refine ⟨by decide, ?_, ?_⟩
  · have h := (c5_pdf_magic_gates_download shC5 (BytesResponse.mk 200 htmlBytes)
      { status_code := 200, content := pdfBytes14 } (by decide)).1
    simpa using h
  · have h := (c5_pdf_magic_gates_download shC5 (BytesResponse.mk 200 htmlBytes)
      { status_code := 200, content := pdfBytes14 } (by decide)).2
    simpa using h

/-- Claim C6: on an HTTP 200 token-refresh response, if the payload carries
an access_token but no refresh_token then the stored refresh_token is left
unchanged (and the access token is replaced); if it carries both, both
stored fields are replaced with the payload values; in both cases refresh()
returns True and writes the token file. -/
theorem c6_refresh_success_token_update (ts : TokenState) (p1 p2 : OAuthPayload)
    (hcr : can_refresh ts = true)
    (h1a : pyTruthy p1.access_token = true) (h1r : p1.refresh_token = none)
    (h2a : pyTruthy p2.access_token = true) (h2r : pyTruthy p2.refresh_token = true) :
    ((MeliTokenStore.refresh ts (.success 200 p1)).state.refresh_token = ts.refresh_token ∧
      (MeliTokenStore.refresh ts (.success 200 p1)).state.access_token = p1.access_token ∧
      (MeliTokenStore.refresh ts (.success 200 p1)).ok = true ∧
      (MeliTokenStore.refresh ts (.success 200 p1)).saveCalled = true) ∧
    ((MeliTokenStore.refresh ts (.success 200 p2)).state.access_token = p2.access_token ∧
      (MeliTokenStore.refresh ts (.success 200 p2)).state.refresh_token = p2.refresh_token ∧
      (MeliTokenStore.refresh ts (.success 200 p2)).ok = true ∧
      (MeliTokenStore.refresh ts (.success 200 p2)).saveCalled = true) := by
  have h1rt : pyTruthy p1.refresh_token = false := by rw [h1r]; rfl
  unfold MeliTokenStore.refresh
  simp [hcr, pyOr, h1a, h1rt, h2a, h2r]

/-- Token state used by the C6 and C10 witnesses. -/
def tsW : TokenState :=
  { app_id := some "app", client_secret := some "sec"
    access_token := some "oldA", refresh_token := some "oldR" }

/-- Refresh payload carrying only an access token. -/
def pW1 : OAuthPayload := { access_token := some "newA" }

/-- Refresh payload carrying both tokens. -/
def pW2 : OAuthPayload := { access_token := some "newA2", refresh_token := some "newR" }

/-- Witness for C6 at a concrete token state and concrete payloads. -/
theorem c6_refresh_success_token_update_witness :
    (MeliTokenStore.refresh tsW (.success 200 pW1)).state.refresh_token = tsW.refresh_token ∧
    (MeliTokenStore.refresh tsW (.success 200 pW2)).state.refresh_token = pW2.refresh_token :=
  ⟨(c6_refresh_success_token_update tsW pW1 pW2 (by decide) (by decide) (by decide)
      (by decide) (by decide)).1.1,
    (c6_refresh_success_token_update tsW pW1 pW2 (by decide) (by decide) (by decide)
      (by decide) (by decide)).2.2.1⟩

/-- Claim C10: whenever refresh() fails — missing credentials, a network or
JSON exception, or a non-200 response — it returns False, the token state
keeps its prior values and _save_file() is never invoked, so the token file
is not rewritten. -/
theorem c10_refresh_failure_leaves_state (ts : TokenState) (http : RefreshHttp)
    (hfail : can_refresh ts = false ∨ http = RefreshHttp.exn ∨
      ∀ s p, http = RefreshHttp.success s p → s ≠ 200) :
    MeliTokenStore.refresh ts http = ⟨ts, false, false⟩ := by
  rcases hfail with h | h | h
  · simp [MeliTokenStore.refresh, h]
  · subst h
    unfold MeliTokenStore.refresh
    cases hc : can_refresh ts <;> simp [hc]
  · cases http with
    | exn =>
      unfold MeliTokenStore.refresh
      cases hc : can_refresh ts <;> simp [hc]
    | success s p =>
      have hs : s ≠ 200 := h s p rfl
      unfold MeliTokenStore.refresh
      cases hc : can_refresh ts <;> simp [hc, hs]

/-- Witness for C10: a credential-less store and an exception both leave
the state untouched and return False without writing the file. -/
theorem c10_refresh_failure_leaves_state_witness :
    MeliTokenStore.refresh {} RefreshHttp.exn = ⟨{}, false, false⟩ :=
  c10_refresh_failure_leaves_state {} RefreshHttp.exn (Or.inl (by decide))

/-! ## Claims about streamlit_app.py -/

/-- Environment used by the C7 theorems: no token, every external call
fails; none of it is reached on the not-found branch. -/
def envC7 : ScanEnv :=
  { now := "2025-01-01T00:00:00"
    page := "ingresar"
    meli_manual_token := ""
    url_disponible := fun _ => false
    fetch_url := fun _ => none
    derive_shipment_id := fun _ _ => none
    download_label := fun _ => (none, none)
    upload_pdf_to_storage := fun _ _ => none }

/-- Counterexample for C7: scanning "ABC " (trailing blank) against an
empty store inserts a record whose guia is the stripped "ABC", not the
original input verbatim. -/
theorem c7_counterexample_guia_is_stripped :
    (process_scan envC7 [] "ABC ").1 =
      [DbOp.insert (insert_no_coincidente_record "2025-01-01T00:00:00" "ABC")] ∧
    (insert_no_coincidente_record "2025-01-01T00:00:00" "ABC").guia ≠ "ABC " := by
  decide

/-- Claim C7 (amended): for every scan whose stripped input is nonempty and
not present in the record store, process_scan performs exactly one insert —
a NO COINCIDENTE! record whose guia is the scanned input with surrounding
whitespace stripped (hence verbatim whenever the input carries none) — and
reports the no-match outcome; no update is issued. -/
theorem c7_no_match_single_insert (env : ScanEnv) (store : List Record) (input : String)
    (hne : pyStrip input ≠ "")
    (hnf : lookup_by_guia store (pyStrip input) = none) :
    process_scan env store input =
      ([DbOp.insert (insert_no_coincidente_record env.now (pyStrip input))],
        ScanOutcome.noCoincidente (pyStrip input)) := by
  unfold process_scan
  simp [hne, hnf]

/-- Witness for C7 at the concrete input "XYZ" and the empty store. -/
theorem c7_no_match_single_insert_witness :
    pyStrip "XYZ" ≠ "" ∧
    lookup_by_guia [] (pyStrip "XYZ") = none ∧
    process_scan envC7 [] "XYZ" =
      ([DbOp.insert (insert_no_coincidente_record envC7.now (pyStrip "XYZ"))],
        ScanOutcome.noCoincidente (pyStrip "XYZ")) :=
  ⟨by decide, by decide, c7_no_match_single_insert envC7 [] "XYZ" (by decide) (by decide)⟩

/-- A store whose only row matches the incoming order on pack_id and
asignacion but not on orden_meli. -/
def storeC8 : List StoredRow :=
  [{ id := 7, orden_meli := "2000001111", asignacion := "FBC9", pack_id := "PK55", guia := "" }]

/-- The incoming row_sync of the C8 counterexample. -/
def rowC8 : RowSync :=
  { asignacion := "FBC9", orden_meli := "2000002222", pack_id := "PK55" }

/-- Counterexample for C8: the stored row matches the fetched order on both
pack_id and asignacion, yet sync inserts a new row instead of updating it —
the dedup check consults orden_meli only. -/
theorem c8_counterexample_pack_id_match_still_inserts :
    sync_upsert_one storeC8 rowC8 = SyncAction.insertRow rowC8 ∧
    storeC8.head?.map StoredRow.pack_id = some rowC8.pack_id ∧
    storeC8.head?.map StoredRow.asignacion = some rowC8.asignacion := by
  decide

/-- Claim C8 (amended): during marketplace order sync a stored record is
treated as existing exactly when its orden_meli equals the fetched order id
— the first such record is then updated in place — and a new row is
inserted precisely when no stored record has that orden_meli; matches on
asignacion or pack_id alone do not prevent the insert. -/
theorem c8_dedup_is_by_orden_meli_only (store : List StoredRow) (row : RowSync) :
    (sync_upsert_one store row = SyncAction.insertRow row ↔
      ∀ s ∈ store, s.orden_meli ≠ row.orden_meli) ∧
    ((∃ s ∈ store, s.orden_meli = row.orden_meli) →
      ∃ s ∈ store, s.orden_meli = row.orden_meli ∧
        sync_upsert_one store row = SyncAction.updateRow s.id (SyncUpdate.ofRow row)) := by
  unfold sync_upsert_one
  cases hfind : store.find? (fun s => s.orden_meli == row.orden_meli) with
  | none =>
    have hall := List.find?_eq_none.mp hfind
    constructor
    · constructor
      · intro _ s hs
        have := hall s hs
        simpa using this
      · intro _
        rfl
    · rintro ⟨s, hs, he⟩
      have := hall s hs
      simp [he] at this
  | some s =>
    have hp := List.find?_some hfind
    have hmem : s ∈ store := List.mem_of_find?_eq_some hfind
    have heq : s.orden_meli = row.orden_meli := by simpa using hp
    constructor
    · constructor
      · intro hins
        exact (SyncAction.noConfusion hins)
      · intro hall
        exact absurd heq (hall s hmem)
    · intro _
      exact ⟨s, hmem, heq, rfl⟩

/-- Witness for C8 at the empty store: with no orden_meli match the action
is an insert. -/
theorem c8_dedup_is_by_orden_meli_only_witness :
    sync_upsert_one [] rowC8 = SyncAction.insertRow rowC8 :=
  (c8_dedup_is_by_orden_meli_only [] rowC8).1.mpr (by simp)

/-- The record found by the C9 scan: it has an order id but no stored PDF. -/
def recC9 : Record := { guia := "G1", asignacion := "FBC1", orden_meli := "O1" }

/-- Environment of the C9 counterexample: print page, a session token, a
derivable shipment id, and a label download that fails. -/
def envC9 : ScanEnv :=
  { now := "2025-02-02T10:00:00"
    page := "imprimir"
    meli_manual_token := "TOKEN"
    url_disponible := fun _ => false
    fetch_url := fun _ => none
    derive_shipment_id := fun _ _ => some "S1"
    download_label := fun _ => (none, some "Error 400: not_printable_status")
    upload_pdf_to_storage := fun _ _ => none }

/-- Counterexample for C9: a print-mode scan of a found record whose label
fetch is attempted and fails issues no database write at all — in
particular no print-timestamp update is applied before the fetch. -/
theorem c9_counterexample_no_write_before_fetch :
    process_scan envC9 [recC9] "G1" =
      ([], ScanOutcome.descargaFallida "Error 400: not_printable_status") := by
  decide

/-- Helper: the token path of the imprimir branch either writes nothing or
performs exactly the single set_impreso_ok write, paired with the success
outcome. -/
theorem imprimir_token_path_write_iff_success (env : ScanEnv) (m : Record)
    (guia asignacion : String) :
    (imprimir_token_path env m guia asignacion).1 = [] ∨
    ∃ url sid, imprimir_token_path env m guia asignacion =
      ([DbOp.set_impreso_ok guia env.now url], ScanOutcome.impresoOk sid) := by
  unfold imprimir_token_path
  by_cases ht : pyStrip env.meli_manual_token = ""
  · rw [if_pos ht]
    exact Or.inl rfl
  · rw [if_neg ht]
    cases hds : env.derive_shipment_id
        (if pyStrip m.orden_meli = "" then none else some (pyStrip m.orden_meli))
        (if pyStrip m.pack_id = "" then none else some (pyStrip m.pack_id)) with
    | none =>
      exact Or.inl rfl
    | some sid =>
      rcases hdl : env.download_label sid with ⟨pdf?, err⟩
      cases pdf? with
      | none =>
        simp [hdl]
      | some pdf =>
        cases hup : env.upload_pdf_to_storage asignacion pdf with
        | none =>
          simp [hdl, hup]
        | some url =>
          refine Or.inr ⟨url, sid, ?_⟩
          simp [hdl, hup]

/-- Helper: the whole imprimir branch either writes nothing or performs
exactly the single set_impreso_ok write, paired with the success outcome. -/
theorem imprimir_branch_write_iff_success (env : ScanEnv) (m : Record) (guia : String) :
    (imprimir_branch env m guia).1 = [] ∨
    ∃ url sid, imprimir_branch env m guia =
      ([DbOp.set_impreso_ok guia env.now url], ScanOutcome.impresoOk sid) := by
  unfold imprimir_branch
  by_cases hstor : m.archivo_adjunto ≠ "" ∧ env.url_disponible m.archivo_adjunto
  · rw [if_pos hstor]
    cases hfetch : env.fetch_url m.archivo_adjunto with
    | none =>
      exact imprimir_token_path_write_iff_success env m guia (asignacion_of m)
    | some pdf_bytes =>
      by_cases hmagic : pdf_bytes.take 4 = pdfMagic
      · simp [hmagic]
      · simpa [hmagic] using
          imprimir_token_path_write_iff_success env m guia (asignacion_of m)
  · rw [if_neg hstor]
    exact imprimir_token_path_write_iff_success env m guia (asignacion_of m)

/-- Helper: under the C9 hypotheses process_scan reduces to the imprimir
branch on the found record. -/
theorem process_scan_imprimir_eq (env : ScanEnv) (store : List Record) (input : String)
    (m : Record)
    (hpage : env.page = "imprimir")
    (hne : pyStrip input ≠ "")
    (hf : lookup_by_guia store (pyStrip input) = some m) :
    process_scan env store input = imprimir_branch env m (pyStrip input) := by
  unfold process_scan
  simp [hne, hf, hpage]

/-- Claim C9 (amended): for every print-mode scan whose tracking code is
found, the print-timestamp update (set_impreso_ok) is issued only together
with a fully successful label fetch and storage upload; on any failure of
the fetch or the upload no database write is performed at all, so there is
nothing to roll back — the update is applied after the fetch, not before. -/
theorem c9_print_timestamp_only_after_success (env : ScanEnv) (store : List Record)
    (input : String) (m : Record)
    (hpage : env.page = "imprimir")
    (hne : pyStrip input ≠ "")
    (hf : lookup_by_guia store (pyStrip input) = some m) :
    (process_scan env store input).1 = [] ∨
    ∃ url sid, process_scan env store input =
      ([DbOp.set_impreso_ok (pyStrip input) env.now url], ScanOutcome.impresoOk sid) := by
  rw [process_scan_imprimir_eq env store input m hpage hne hf]
  exact imprimir_branch_write_iff_success env m (pyStrip input)

/-- Witness for C9 at the concrete failing-download environment. -/
theorem c9_print_timestamp_only_after_success_witness :
    envC9.page = "imprimir" ∧
    pyStrip "G1" ≠ "" ∧
    lookup_by_guia [recC9] (pyStrip "G1") = some recC9 ∧
    ((process_scan envC9 [recC9] "G1").1 = [] ∨
      ∃ url sid, process_scan envC9 [recC9] "G1" =
        ([DbOp.set_impreso_ok (pyStrip "G1") envC9.now url], ScanOutcome.impresoOk sid)) :=
  ⟨rfl, by decide, by decide,
    c9_print_timestamp_only_after_success envC9 [recC9] "G1" recC9 rfl (by decide) (by decide)⟩

end EscanerBodega
